import Mathlib

set_option linter.unreachableTactic false
set_option linter.unusedTactic false

/-!
Shallow embedding of the Construction Progress Tracker service.

The embedding follows `src/app/main.py` (the pooled, timezone-aware
implementation) for the validation engine and the four task handlers,
and `src/backend/app.py` for the non-pooled variant of `add_task`
(needed because it differs on the store-error path).

JSON payloads are association lists of string keys to `Value`s; the
store is a list of task rows plus the next id the store will assign;
store faults (connection acquisition failing, a statement raising,
commit raising) are an explicit oracle `StoreBehavior`.  Each handler
returns the HTTP body and code, the resulting store, and the trace of
connection events it performed (acquire / commit / rollback / release).
-/

/-- A JSON value as it appears in a request payload. -/
inductive Value where
  | str (s : String)
  | int (n : Int)
  | null
deriving DecidableEq, Repr

/-- A request payload: field names to values (Python dict). -/
abbrev Payload := List (String × Value)

/-- `data[k]` lookup returning the first binding, `none` when absent. -/
def pget : Payload → String → Option Value
  | [], _ => none
  | (k, v) :: rest, key => if k = key then some v else pget rest key

/-- Python `data.get(k, d)`. -/
def pgetD (data : Payload) (k : String) (d : Value) : Value := (pget data k).getD d

/-- Python `k in data`. -/
def phas (data : Payload) (k : String) : Bool := (pget data k).isSome

/-- Python truthiness of a payload value. -/
def truthy : Value → Bool
  | .str s => s != ""
  | .int n => n != 0
  | .null => false

/-- A calendar date (year, month, day). -/
structure Date where
  year : Nat
  month : Nat
  day : Nat
deriving DecidableEq, Repr

/-- A UTC instant: a date plus the number of seconds since its midnight. -/
structure UtcTime where
  date : Date
  sec : Nat
deriving DecidableEq, Repr

/-- Gregorian leap-year test. -/
def isLeapYear (y : Nat) : Bool := (y % 4 == 0 && y % 100 != 0) || y % 400 == 0

/-- Number of days in a month (Gregorian calendar). -/
def daysInMonth (y m : Nat) : Nat :=
  if m = 2 then (if isLeapYear y then 29 else 28)
  else if m = 4 ∨ m = 6 ∨ m = 9 ∨ m = 11 then 30
  else 31

/-- Strict lexicographic order on dates. -/
def dateLt (a b : Date) : Bool :=
  decide (a.year < b.year ∨ (a.year = b.year ∧
    (a.month < b.month ∨ (a.month = b.month ∧ a.day < b.day))))

/-- `datetime(d, 00:00, UTC) < now`: the comparison performed by the
deadline check of `src/app/main.py` (midnight of the parsed date against
the current instant). -/
def dtLtNow (d : Date) (now : UtcTime) : Bool :=
  dateLt d now.date || (d == now.date && decide (0 < now.sec))

/-- Split a character list at every `-`, like Python `s.split("-")`. -/
def splitDash : List Char → List (List Char)
  | [] => [[]]
  | c :: rest =>
    let r := splitDash rest
    if c = '-' then [] :: r
    else
      match r with
      | [] => [[c]]
      | h :: t => (c :: h) :: t

/-- Value of a non-empty all-digit character list, else `none`. -/
def digitsVal? (cs : List Char) : Option Nat :=
  if cs.isEmpty then none
  else if cs.all Char.isDigit then
    some (cs.foldl (fun a c => a * 10 + (c.toNat - 48)) 0)
  else none

/-- `datetime.strptime(s, "%Y-%m-%d")`: four-digit year, one- or
two-digit month in 1..12, one- or two-digit day in 1..31, the whole
string consumed, and the day valid for the month (else `ValueError`).
Returns the parsed date, `none` on `ValueError`. -/
def parseDate (s : String) : Option Date :=
  match splitDash s.data with
  | [ys, ms, ds] =>
    match digitsVal? ys, digitsVal? ms, digitsVal? ds with
    | some y, some m, some d =>
      if ys.length = 4 ∧ (ms.length = 1 ∨ ms.length = 2) ∧
         (ds.length = 1 ∨ ds.length = 2) ∧
         1 ≤ m ∧ m ≤ 12 ∧ 1 ≤ d ∧ d ≤ 31 ∧ 1 ≤ y ∧ d ≤ daysInMonth y m
      then some ⟨y, m, d⟩ else none
    | _, _, _ => none
  | _ => none

/-- Characters allowed by the name pattern `^[\w\s\-()]{3,100}$`
(word characters, whitespace, hyphen, parentheses). -/
def isNameChar (c : Char) : Bool :=
  c.isAlphanum || c == '_' || c == ' ' || c == '\t' || c == '\n' ||
  c == '\r' || c == '\x0b' || c == '\x0c' || c == '-' || c == '(' || c == ')'

/-- `re.match(r"^[\w\s\-()]{3,100}$", s)` as a boolean. -/
def nameOk (s : String) : Bool :=
  decide (3 ≤ s.data.length) && decide (s.data.length ≤ 100) && s.data.all isNameChar

/-- Does `needle` start `hay`? -/
def listStartsWith : List Char → List Char → Bool
  | [], _ => true
  | _ :: _, [] => false
  | a :: as, b :: bs => a == b && listStartsWith as bs

/-- Does `needle` occur contiguously inside `hay`? -/
def listHasSub (needle : List Char) : List Char → Bool
  | [] => listStartsWith needle []
  | c :: rest => listStartsWith needle (c :: rest) || listHasSub needle rest

/-- Does `needle` occur as a substring of `hay`? -/
def strHasSub (needle hay : String) : Bool := listHasSub needle.data hay.data

/-- `re.search(r"(;|--|union|select|insert|update|delete|drop)", s, re.IGNORECASE)`:
a case-insensitive substring search for any of the denylisted tokens. -/
def containsInjection (s : String) : Bool :=
  let l := s.data.map Char.toLower
  listHasSub ";".data l || listHasSub "--".data l ||
  listHasSub "union".data l || listHasSub "select".data l ||
  listHasSub "insert".data l || listHasSub "update".data l ||
  listHasSub "delete".data l || listHasSub "drop".data l

/-- The injection scan applies only to string-typed values. -/
def valueInj : Value → Bool
  | .str s => containsInjection s
  | _ => false

/-- Outcome of `validate_task_data`: pass (`None` in Python), a
rejection `({"error": msg}, code)`, or an uncaught Python exception
(e.g. `TypeError` on a non-string where a string is required), which
the framework turns into a generic 500. -/
inductive VResult where
  | ok
  | reject (msg : String) (code : Nat)
  | pyError
deriving DecidableEq, Repr

/-- Check 1 of `validate_task_data`: the name pattern. -/
def nameCheck (data : Payload) : VResult :=
  match pgetD data "name" (.str "") with
  | .str s =>
    if nameOk s then .ok
    else .reject "Invalid task name (3-100 alphanumeric characters)" 400
  | _ => .pyError

/-- Check 2 of `validate_task_data`: priority membership. -/
def priorityCheck (data : Payload) : VResult :=
  if pgetD data "priority" .null == .str "Low" ||
     pgetD data "priority" .null == .str "Medium" ||
     pgetD data "priority" .null == .str "High"
  then .ok else .reject "Invalid priority value" 400

/-- Check 3 of `validate_task_data`: the deadline check of
`src/app/main.py`, run only when `deadline` is present and truthy. -/
def deadlineCheck (data : Payload) (now : UtcTime) : VResult :=
  let dv := pgetD data "deadline" .null
  if phas data "deadline" && truthy dv then
    match dv with
    | .str ds =>
      match parseDate ds with
      | none => .reject "Invalid deadline format. Use YYYY-MM-DD." 400
      | some dd =>
        if dtLtNow dd now then .reject "Deadline cannot be in the past" 400
        else .ok
    | _ => .pyError
  else .ok

/-- Check 4 of `validate_task_data`: the denylist scan over all values. -/
def injectionScan (data : Payload) : VResult :=
  if (data.map Prod.snd).any valueInj then .reject "Invalid input detected" 400
  else .ok

/-- `validate_task_data(data)` of `src/app/main.py`, with the current
UTC instant passed explicitly.  Translated statement by statement:
name pattern, then priority membership, then (when present and truthy)
the deadline parse and past check, then the injection scan. -/
def validate_task_data (data : Payload) (now : UtcTime) : VResult :=
  match pgetD data "name" (.str "") with
  | .str s =>
    if nameOk s then
      if pgetD data "priority" .null == .str "Low" ||
         pgetD data "priority" .null == .str "Medium" ||
         pgetD data "priority" .null == .str "High" then
        let dv := pgetD data "deadline" .null
        if phas data "deadline" && truthy dv then
          match dv with
          | .str ds =>
            match parseDate ds with
            | none => .reject "Invalid deadline format. Use YYYY-MM-DD." 400
            | some dd =>
              if dtLtNow dd now then .reject "Deadline cannot be in the past" 400
              else injectionScan data
          | _ => .pyError
        else injectionScan data
      else .reject "Invalid priority value" 400
    else .reject "Invalid task name (3-100 alphanumeric characters)" 400
  | _ => .pyError

/-- First non-passing result of a list of checks, `ok` when all pass. -/
def firstFail : List VResult → VResult
  | [] => .ok
  | r :: rs => match r with | .ok => firstFail rs | x => x

/-- A task row as persisted in the `tasks` table. -/
structure TaskRow where
  id : Nat
  name : String
  progress : Int
  assigned_to : Option String
  deadline : Option Date
  priority : String
deriving DecidableEq, Repr

/-- The relational store: the `tasks` table plus the next id the store
will assign to an inserted row. -/
structure Store where
  tasks : List TaskRow
  nextId : Nat
deriving DecidableEq, Repr

/-- Fault oracle for one request: whether acquiring a connection
raises, whether executing a statement raises, whether committing
raises, and the text of the raised store error (`str(e)`). -/
structure StoreBehavior where
  acquireFails : Bool
  execFails : Bool
  commitFails : Bool
  errMsg : String
deriving Repr

/-- A behavior in which every store interaction succeeds. -/
def okBeh : StoreBehavior := ⟨false, false, false, ""⟩

/-- Connection events performed by a handler, in order.  `release` is
`pool.putconn` in `src/app/main.py` (which also discards any
uncommitted transaction left on the connection) and `conn.close()` in
`src/backend/app.py`. -/
inductive Ev where
  | acquire
  | commit
  | rollback
  | release
deriving DecidableEq, Repr

/-- A task row as serialized in a `GET /tasks` response: the deadline
becomes text or null. -/
structure TaskOut where
  id : Nat
  name : String
  progress : Int
  assigned_to : Option String
  deadline : Option String
  priority : String
deriving DecidableEq, Repr

/-- HTTP response body. -/
inductive RespBody where
  | msg (m : String)
  | msgId (m : String) (id : Nat)
  | err (e : String)
  | tasks (ts : List TaskOut)
deriving DecidableEq, Repr

/-- What a handler produces: body, status code, resulting store, and
the trace of connection events. -/
structure HResult where
  body : RespBody
  code : Nat
  store : Store
  trace : List Ev
deriving DecidableEq, Repr

/-- Zero-padded two-digit rendering (strftime `%m` / `%d`). -/
def pad2 (n : Nat) : String := if n < 10 then "0" ++ toString n else toString n

/-- Zero-padded four-digit rendering (strftime `%Y` as documented). -/
def pad4 (n : Nat) : String :=
  if n < 10 then "000" ++ toString n
  else if n < 100 then "00" ++ toString n
  else if n < 1000 then "0" ++ toString n
  else toString n

/-- `d.strftime("%Y-%m-%d")`. -/
def formatDate (d : Date) : String :=
  pad4 d.year ++ "-" ++ pad2 d.month ++ "-" ++ pad2 d.day

/-- Row serialization of `get_tasks`: a present deadline is rendered
as `YYYY-MM-DD` text, an absent one stays null. -/
def renderTask (t : TaskRow) : TaskOut :=
  ⟨t.id, t.name, t.progress, t.assigned_to, t.deadline.map formatDate, t.priority⟩

/-- `ORDER BY id` on the tasks table. -/
def taskIdLe (a b : TaskRow) : Prop := a.id ≤ b.id

instance : DecidableRel taskIdLe := fun a b => Nat.decLe a.id b.id

instance : IsTotal TaskRow taskIdLe := ⟨fun a b => Nat.le_total a.id b.id⟩

instance : IsTrans TaskRow taskIdLe := ⟨fun _ _ _ h h2 => Nat.le_trans h h2⟩

/-- The result set of `SELECT ... FROM tasks ORDER BY id`. -/
def selectAllOrdered (s : Store) : List TaskRow := List.insertionSort taskIdLe s.tasks

/-- `GET /tasks` (`get_tasks` of `src/app/main.py`): acquire, select
ordered by id, render each deadline, 200; on any store exception the
caught handler returns 500 "Failed to retrieve tasks"; the `finally`
block releases the connection when one was acquired. -/
def get_tasks (store : Store) (beh : StoreBehavior) : HResult :=
  if beh.acquireFails then
    ⟨.err "Failed to retrieve tasks", 500, store, []⟩
  else if beh.execFails then
    ⟨.err "Failed to retrieve tasks", 500, store, [.acquire, .release]⟩
  else
    ⟨.tasks ((selectAllOrdered store).map renderTask), 200, store, [.acquire, .release]⟩

/-- `data["name"]` / `data["priority"]` adapted for a text column:
anything but a string makes the insert raise. -/
def convText : Option Value → Option String
  | some (.str s) => some s
  | _ => none

/-- `data.get("progress", 0)` adapted for the integer `progress`
column: anything but an int makes the insert raise. -/
def convProgress : Value → Option Int
  | .int n => some n
  | _ => none

/-- `data.get("assigned_to")` adapted for the nullable text column. -/
def convAssigned : Value → Option (Option String)
  | .null => some none
  | .str s => some (some s)
  | .int _ => none

/-- `data.get("deadline")` adapted for the nullable date column: null
stays null, a string must parse as a date, anything else raises. -/
def convDeadline : Value → Option (Option Date)
  | .null => some none
  | .str s =>
    match parseDate s with
    | some d => some (some d)
    | none => none
  | .int _ => none

/-- The row the INSERT of `add_task` writes, `none` when building or
executing the statement raises (missing key or untypable value). -/
def insertRow? (data : Payload) (id : Nat) : Option TaskRow :=
  match convText (pget data "name"), convProgress (pgetD data "progress" (.int 0)),
        convAssigned (pgetD data "assigned_to" .null),
        convDeadline (pgetD data "deadline" .null), convText (pget data "priority") with
  | some nm, some pr, some asg, some dl, some pri => some ⟨id, nm, pr, asg, dl, pri⟩
  | _, _, _, _, _ => none

/-- `POST /tasks` (`add_task` of `src/app/main.py`).  Validation runs
before the `try` block; a rejection returns immediately with no store
interaction.  A validation `TypeError` propagates to the framework
(500) before any acquire.  If `pool.getconn()` raises, the `except`
block's `conn.rollback()` hits `None` and the `AttributeError`
propagates to the framework (500); nothing was acquired so nothing is
released.  After a successful acquire: a raising insert (or failing
commit) is caught, rolled back, and answered with the fixed string
"Failed to create task"; success commits and returns the new id.  The
`finally` block always releases an acquired connection. -/
def add_task (data : Payload) (now : UtcTime) (store : Store) (beh : StoreBehavior) : HResult :=
  match validate_task_data data now with
  | .reject m c => ⟨.err m, c, store, []⟩
  | .pyError => ⟨.err "Internal server error", 500, store, []⟩
  | .ok =>
    if beh.acquireFails then
      ⟨.err "Internal server error", 500, store, []⟩
    else
      match (if beh.execFails then none else insertRow? data store.nextId) with
      | none => ⟨.err "Failed to create task", 500, store, [.acquire, .rollback, .release]⟩
      | some t =>
        if beh.commitFails then
          ⟨.err "Failed to create task", 500, store, [.acquire, .rollback, .release]⟩
        else
          ⟨.msgId "Task added successfully" store.nextId, 201,
           ⟨store.tasks ++ [t], store.nextId + 1⟩, [.acquire, .commit, .release]⟩

/-- `PUT /tasks/<task_id>` (`update_task` of `src/app/main.py`).  The
range check `if "progress" in data and not (0 <= data["progress"] <= 100)`
runs before the `try` block (a non-int progress raises `TypeError` to
the framework there).  Inside the `try`, `data["progress"]` raises
`KeyError` when the field is absent, caught as a store error (rollback,
500).  The UPDATE's rowcount is the number of rows whose id matches;
zero means 404 (returned from inside the `with`, so released by
`finally` with the open empty transaction discarded by `putconn`). -/
def update_task (task_id : Nat) (data : Payload) (store : Store) (beh : StoreBehavior) : HResult :=
  match pget data "progress" with
  | some (.str _) => ⟨.err "Internal server error", 500, store, []⟩
  | some .null => ⟨.err "Internal server error", 500, store, []⟩
  | some (.int n) =>
    if ¬(0 ≤ n ∧ n ≤ 100) then
      ⟨.err "Progress must be between 0-100", 400, store, []⟩
    else if beh.acquireFails then
      ⟨.err "Internal server error", 500, store, []⟩
    else if beh.execFails then
      ⟨.err "Failed to update task", 500, store, [.acquire, .rollback, .release]⟩
    else if (store.tasks.countP (fun t => t.id == task_id)) = 0 then
      ⟨.err "Task not found", 404, store, [.acquire, .release]⟩
    else if beh.commitFails then
      ⟨.err "Failed to update task", 500, store, [.acquire, .rollback, .release]⟩
    else
      ⟨.msg "Task updated successfully", 200,
       ⟨store.tasks.map (fun t => if t.id == task_id then { t with progress := n } else t),
        store.nextId⟩,
       [.acquire, .commit, .release]⟩
  | none =>
    if beh.acquireFails then
      ⟨.err "Internal server error", 500, store, []⟩
    else
      ⟨.err "Failed to update task", 500, store, [.acquire, .rollback, .release]⟩

/-- `DELETE /tasks/<task_id>` (`delete_task` of `src/app/main.py`):
same shape as the update, deleting matching rows. -/
def delete_task (task_id : Nat) (store : Store) (beh : StoreBehavior) : HResult :=
  if beh.acquireFails then
    ⟨.err "Internal server error", 500, store, []⟩
  else if beh.execFails then
    ⟨.err "Failed to delete task", 500, store, [.acquire, .rollback, .release]⟩
  else if (store.tasks.countP (fun t => t.id == task_id)) = 0 then
    ⟨.err "Task not found", 404, store, [.acquire, .release]⟩
  else if beh.commitFails then
    ⟨.err "Failed to delete task", 500, store, [.acquire, .rollback, .release]⟩
  else
    ⟨.msg "Task deleted successfully", 200,
     ⟨store.tasks.filter (fun t => !(t.id == task_id)), store.nextId⟩,
     [.acquire, .commit, .release]⟩

/-- `validate_task_data` of `src/backend/app.py`: identical name,
priority and deadline checks (the deadline compared against a naive
`datetime.now()`, same comparison shape), and no injection scan. -/
def backend_validate_task_data (data : Payload) (now : UtcTime) : VResult :=
  match pgetD data "name" (.str "") with
  | .str s =>
    if nameOk s then
      if pgetD data "priority" .null == .str "Low" ||
         pgetD data "priority" .null == .str "Medium" ||
         pgetD data "priority" .null == .str "High" then
        let dv := pgetD data "deadline" .null
        if phas data "deadline" && truthy dv then
          match dv with
          | .str ds =>
            match parseDate ds with
            | none => .reject "Invalid deadline format. Use YYYY-MM-DD." 400
            | some dd =>
              if dtLtNow dd now then .reject "Deadline cannot be in the past" 400
              else .ok
          | _ => .pyError
        else .ok
      else .reject "Invalid priority value" 400
    else .reject "Invalid task name (3-100 alphanumeric characters)" 400
  | _ => .pyError

/-- The row the INSERT of the backend `add_task` writes: it reads
`data["assigned_to"]` (KeyError when absent) and
`data["deadline"] if data.get("deadline") else None`. -/
def backendInsertRow? (data : Payload) (id : Nat) : Option TaskRow :=
  match pget data "assigned_to" with
  | none => none
  | some av =>
    let dlv := pgetD data "deadline" .null
    let dl? : Option (Option Date) :=
      if truthy dlv then convDeadline dlv else some none
    match convText (pget data "name"), convProgress (pgetD data "progress" (.int 0)),
          convAssigned av, dl?, convText (pget data "priority") with
    | some nm, some pr, some asg, some dl, some pri => some ⟨id, nm, pr, asg, dl, pri⟩
    | _, _, _, _, _ => none

/-- `add_task` of `src/backend/app.py`: every exception inside the
`try` is answered with `{"error": f"Database error: {str(e)}"}` — the
raw store error text is echoed — with no rollback and no `close()` on
that path (the acquired connection is abandoned). -/
def backend_add_task (data : Payload) (now : UtcTime) (store : Store) (beh : StoreBehavior) : HResult :=
  match backend_validate_task_data data now with
  | .reject m c => ⟨.err m, c, store, []⟩
  | .pyError => ⟨.err "Internal server error", 500, store, []⟩
  | .ok =>
    if beh.acquireFails then
      ⟨.err ("Database error: " ++ beh.errMsg), 500, store, []⟩
    else
      match (if beh.execFails then none else backendInsertRow? data store.nextId) with
      | none => ⟨.err ("Database error: " ++ beh.errMsg), 500, store, [.acquire]⟩
      | some t =>
        if beh.commitFails then
          ⟨.err ("Database error: " ++ beh.errMsg), 500, store, [.acquire]⟩
        else
          ⟨.msgId "Task added successfully" store.nextId, 201,
           ⟨store.tasks ++ [t], store.nextId + 1⟩, [.acquire, .commit, .release]⟩

/-- The invariant of the data model: every stored progress lies in
[0, 100]. -/
def StoreInv (s : Store) : Prop := ∀ t ∈ s.tasks, 0 ≤ t.progress ∧ t.progress ≤ 100

instance (s : Store) : Decidable (StoreInv s) := List.decidableBAll _ s.tasks

/-- A well-formed connection trace: as many releases as acquires, at
most one acquire, and when anything was acquired the trace starts with
the acquire and ends with the release. -/
def TraceOk (tr : List Ev) : Prop :=
  tr.count .acquire = tr.count .release ∧ tr.count .acquire ≤ 1 ∧
  (tr = [] ∨ (tr.head? = some .acquire ∧ tr.getLast? = some .release))

instance (tr : List Ev) : Decidable (TraceOk tr) := by unfold TraceOk; infer_instance

theorem traceOk_nil : TraceOk [] := by decide

theorem traceOk_ar : TraceOk [.acquire, .release] := by decide

theorem traceOk_arr : TraceOk [.acquire, .rollback, .release] := by decide

theorem traceOk_acr : TraceOk [.acquire, .commit, .release] := by decide

/-- **C1**: for every operation of `src/app/main.py` (list, create,
update-progress, delete) and every exit path — success, not-found, or
a store exception at acquire, execute or commit time — a connection
acquired from the pool is released exactly once before the operation
returns, and no path terminates holding an unreleased connection. -/
theorem c1_connection_release_balanced (data datau : Payload) (now : UtcTime)
    (uid did : Nat) (store : Store) (beh : StoreBehavior) :
    TraceOk (get_tasks store beh).trace ∧
    TraceOk (add_task data now store beh).trace ∧
    TraceOk (update_task uid datau store beh).trace ∧
    TraceOk (delete_task did store beh).trace := by
  refine ⟨?_, ?_, ?_, ?_⟩
  · unfold get_tasks
    repeat' split
    all_goals first | exact traceOk_nil | exact traceOk_ar | exact traceOk_arr | exact traceOk_acr
  · unfold add_task
    repeat' split
    all_goals first | exact traceOk_nil | exact traceOk_ar | exact traceOk_arr | exact traceOk_acr
  · unfold update_task
    repeat' split
    all_goals first | exact traceOk_nil | exact traceOk_ar | exact traceOk_arr | exact traceOk_acr
  · unfold delete_task
    repeat' split
    all_goals first | exact traceOk_nil | exact traceOk_ar | exact traceOk_arr | exact traceOk_acr

/-- Example fixture: a store holding one task with id 1. -/
def exStore1 : Store := ⟨[⟨1, "Site prep", 10, none, none, "Low"⟩], 2⟩

/-- Example fixture: an instant one hour past midnight UTC. -/
def exNow : UtcTime := ⟨⟨2024, 6, 15⟩, 3600⟩

/-- The store after `update_task` is either unchanged or has the
matching rows' progress set to an in-range value. -/
theorem update_task_store_cases (task_id : Nat) (data : Payload) (store : Store)
    (beh : StoreBehavior) :
    (update_task task_id data store beh).store = store ∨
    ∃ n : Int, 0 ≤ n ∧ n ≤ 100 ∧
      (update_task task_id data store beh).store =
        ⟨store.tasks.map (fun t => if t.id == task_id then { t with progress := n } else t),
         store.nextId⟩ := by
  unfold update_task
  split
  · left; rfl
  · left; rfl
  · rename_i n hp
    split
    · left; rfl
    · rename_i hn
      rw [not_not] at hn
      split
      · left; rfl
      · split
        · left; rfl
        · split
          · left; rfl
          · split
            · left; rfl
            · right; exact ⟨n, hn.1, hn.2, rfl⟩
  · split
    · left; rfl
    · left; rfl

/-- The store after `add_task` is either unchanged or extended by
exactly the row the INSERT builds. -/
theorem add_task_store_cases (data : Payload) (now : UtcTime) (store : Store)
    (beh : StoreBehavior) :
    (add_task data now store beh).store = store ∨
    ∃ t, insertRow? data store.nextId = some t ∧
      (add_task data now store beh).store = ⟨store.tasks ++ [t], store.nextId + 1⟩ := by
  unfold add_task
  split
  · left; rfl
  · left; rfl
  · split
    · left; rfl
    · split
      · left; rfl
      · rename_i t ht
        split
        · left; rfl
        · right
          refine ⟨t, ?_, rfl⟩
          by_cases hb : beh.execFails = true
          · simp [hb] at ht
          · simpa [hb] using ht

/-- The progress of an inserted row: the payload's int value, or the
default 0 when the field is absent. -/
theorem insertRow_progress (data : Payload) (id : Nat) (t : TaskRow)
    (h : insertRow? data id = some t) :
    (pget data "progress" = none ∧ t.progress = 0) ∨
    pget data "progress" = some (.int t.progress) := by
  unfold insertRow? at h
  split at h
  · rename_i nm pr asg dl pri hnm hpr hasg hdl hpri
    cases h
    rcases hp : pget data "progress" with _ | v
    · left
      refine ⟨rfl, ?_⟩
      rw [pgetD, hp] at hpr
      simp [Option.getD, convProgress] at hpr
      exact hpr.symm
    · right
      rw [pgetD, hp] at hpr
      cases v with
      | str s => simp [Option.getD, convProgress] at hpr
      | int m => simp [Option.getD, convProgress] at hpr; rw [hpr]
      | null => simp [Option.getD, convProgress] at hpr
  · exact absurd h (by simp)

/-- Example payload: a valid create request with no progress field. -/
def exPayloadA : Payload := [("name", .str "Pour foundation"), ("priority", .str "High")]

/-- Payload of the C2 counterexample: valid name and priority, progress
150. -/
def c2Payload : Payload :=
  [("name", .str "Build wall"), ("priority", .str "High"), ("progress", .int 150)]

/-- **C2, counterexample**: starting from an empty store (which
satisfies the invariant), a create request with progress 150 passes
validation, is accepted with 201, and writes a row whose progress is
outside [0,100]: the create operation does not preserve the invariant. -/
theorem c2_create_accepts_out_of_range_progress :
    StoreInv ⟨[], 1⟩ ∧
    (add_task c2Payload exNow ⟨[], 1⟩ okBeh).code = 201 ∧
    ¬ StoreInv (add_task c2Payload exNow ⟨[], 1⟩ okBeh).store := by decide

/-- **C2, amended**: the update-progress operation preserves the
invariant `progress ∈ [0,100]` unconditionally; the create operation
defaults an absent progress to 0 but performs no range check, so it
preserves the invariant only under the assumption that any supplied
int progress is within [0,100]. -/
theorem c2_progress_invariant_amended (store : Store) (uid : Nat)
    (datau datac : Payload) (now : UtcTime) (beh : StoreBehavior)
    (hinv : StoreInv store)
    (hc : ∀ n : Int, pget datac "progress" = some (.int n) → 0 ≤ n ∧ n ≤ 100) :
    StoreInv (update_task uid datau store beh).store ∧
    StoreInv (add_task datac now store beh).store := by
  constructor
  · rcases update_task_store_cases uid datau store beh with h | ⟨n, h0, h1, h⟩
    · rw [h]; exact hinv
    · rw [h]
      intro t ht
      simp only [List.mem_map] at ht
      obtain ⟨u, hu, rfl⟩ := ht
      by_cases hid : (u.id == uid) = true
      · simp only [hid, if_true]
        exact ⟨h0, h1⟩
      · simp only [hid, if_false]
        exact hinv u hu
  · rcases add_task_store_cases datac now store beh with h | ⟨t, hrow, h⟩
    · rw [h]; exact hinv
    · rw [h]
      intro u hu
      simp only [List.mem_append, List.mem_singleton] at hu
      rcases hu with hu | rfl
      · exact hinv u hu
      · rcases insertRow_progress datac store.nextId u hrow with ⟨_, hp⟩ | hp
        · rw [hp]
          exact ⟨le_refl 0, by norm_num⟩
        · exact hc u.progress hp

/-- Witness for the amended C2 at concrete inputs. -/
theorem c2_progress_invariant_amended_witness :
    StoreInv (update_task 1 [("progress", Value.int 50)] exStore1 okBeh).store ∧
    StoreInv (add_task exPayloadA exNow exStore1 okBeh).store :=
  c2_progress_invariant_amended exStore1 1 [("progress", Value.int 50)] exPayloadA exNow okBeh
    (by decide) (by intro n hn; simp [pget, exPayloadA] at hn)

theorem firstFail_cons_ok (rs : List VResult) : firstFail (.ok :: rs) = firstFail rs := rfl

theorem firstFail_cons_reject (m : String) (c : Nat) (rs : List VResult) :
    firstFail (.reject m c :: rs) = .reject m c := rfl

theorem firstFail_cons_pyError (rs : List VResult) :
    firstFail (.pyError :: rs) = .pyError := rfl

theorem firstFail_single (r : VResult) : firstFail [r] = r := by cases r <;> rfl

/-- `validate_task_data` applies the four checks in the fixed order
name, priority, deadline, injection, and returns the first failure. -/
theorem validate_eq_firstFail (data : Payload) (now : UtcTime) :
    validate_task_data data now =
      firstFail [nameCheck data, priorityCheck data, deadlineCheck data now,
                 injectionScan data] := by
  unfold validate_task_data nameCheck priorityCheck deadlineCheck
  repeat'
    first
    | simp_all only [firstFail_cons_ok, firstFail_cons_reject, firstFail_cons_pyError,
        firstFail_single]
    | split

/-- **C9, counterexample**: the same payload validated at two instants
of the same UTC date gives different results (accepted at midnight,
rejected one hour later), so the result does not depend only on the
payload and the current date. -/
theorem c9_result_depends_on_time_of_day :
    (⟨⟨2024, 6, 15⟩, 0⟩ : UtcTime).date = (⟨⟨2024, 6, 15⟩, 3600⟩ : UtcTime).date ∧
    validate_task_data
      [("name", .str "Paint walls"), ("priority", .str "Low"),
       ("deadline", .str "2024-06-15")] ⟨⟨2024, 6, 15⟩, 0⟩ = .ok ∧
    validate_task_data
      [("name", .str "Paint walls"), ("priority", .str "Low"),
       ("deadline", .str "2024-06-15")] ⟨⟨2024, 6, 15⟩, 3600⟩ =
      .reject "Deadline cannot be in the past" 400 := by decide

/-- **C9, amended**: `validate_task_data` applies its checks in the
fixed order name, priority, deadline, injection-denylist and returns
the rejection of the first check that fails; a payload passing all four
checks is accepted; the result is a function of the payload and the
current UTC instant (date and time of day, not the date alone) and of
nothing else — in particular not of database state. -/
theorem c9_validation_order_first_failure (data : Payload) (now : UtcTime) :
    validate_task_data data now =
      firstFail [nameCheck data, priorityCheck data, deadlineCheck data now,
                 injectionScan data] :=
  validate_eq_firstFail data now

/-- **C4, counterexample**: the payload with name "Task Selection"
passes the name, priority and deadline checks, but the denylist scan
matches the substring "select" inside "Selection" and rejects it: a
name containing "Selection" is not unaffected by the scan. -/
theorem c4_selection_is_rejected_by_scan :
    nameCheck [("name", .str "Task Selection"), ("priority", .str "Low")] = .ok ∧
    priorityCheck [("name", .str "Task Selection"), ("priority", .str "Low")] = .ok ∧
    deadlineCheck [("name", .str "Task Selection"), ("priority", .str "Low")] exNow = .ok ∧
    containsInjection "Task Selection" = true ∧
    validate_task_data [("name", .str "Task Selection"), ("priority", .str "Low")] exNow =
      .reject "Invalid input detected" 400 := by decide

/-- **C4, amended**: the denylist scan matches `;`, `--` and the six
keywords as case-insensitive substrings of any string-typed value, not
as whole keywords: every payload reaching the scan (name, priority and
deadline checks passed) with such a value is rejected with 400 — so a
name containing "Selection" is rejected, not accepted. -/
theorem c4_injection_scan_is_substring_match (data : Payload) (now : UtcTime)
    (h1 : nameCheck data = .ok) (h2 : priorityCheck data = .ok)
    (h3 : deadlineCheck data now = .ok)
    (h4 : (data.map Prod.snd).any valueInj = true) :
    validate_task_data data now = .reject "Invalid input detected" 400 := by
  rw [validate_eq_firstFail, ]
  simp [firstFail, h1, h2, h3, injectionScan, h4]

/-- Witness for the amended C4 at a concrete payload. -/
theorem c4_injection_scan_witness :
    validate_task_data [("name", .str "Task Selection"), ("priority", .str "Low")] exNow =
      .reject "Invalid input detected" 400 :=
  c4_injection_scan_is_substring_match
    [("name", .str "Task Selection"), ("priority", .str "Low")] exNow
    (by decide) (by decide) (by decide) (by decide)

/-- **C7**: a create request whose payload fails validation is answered
with the rejection itself, before any connection is acquired and before
any store interaction: the store is unchanged and the connection trace
is empty. -/
theorem c7_validation_short_circuits (data : Payload) (now : UtcTime)
    (store : Store) (beh : StoreBehavior) (m : String) (c : Nat)
    (h : validate_task_data data now = .reject m c) :
    add_task data now store beh = ⟨.err m, c, store, []⟩ := by
  unfold add_task
  rw [h]

/-- Witness for C7 at a concrete invalid payload. -/
theorem c7_validation_short_circuits_witness :
    add_task [("name", .str "ab"), ("priority", .str "Low")] exNow exStore1 okBeh =
      ⟨.err "Invalid task name (3-100 alphanumeric characters)", 400, exStore1, []⟩ :=
  c7_validation_short_circuits [("name", .str "ab"), ("priority", .str "Low")] exNow
    exStore1 okBeh "Invalid task name (3-100 alphanumeric characters)" 400 (by decide)

/-- Payload of the C3 counterexample: valid fields with a deadline
equal to the current UTC date. -/
def c3Payload : Payload :=
  [("name", .str "Pour foundation"), ("priority", .str "High"),
   ("deadline", .str "2024-06-15")]

/-- **C3, counterexample**: the deadline parses to exactly the current
UTC date (2024-06-15), so per the claim validation must accept; but at
one hour past midnight the code compares midnight of the deadline with
the current instant and rejects with "Deadline cannot be in the past". -/
theorem c3_today_deadline_rejected :
    parseDate "2024-06-15" = some exNow.date ∧
    dateLt exNow.date exNow.date = false ∧
    validate_task_data c3Payload exNow = .reject "Deadline cannot be in the past" 400 := by
  decide

/-- **C3, amended**: for an otherwise-valid payload with a truthy
string deadline: a non-parsing deadline is rejected 400 (invalid
format); a parsed deadline whose midnight UTC lies before the current
instant — every date strictly before today, and also today itself
whenever the time is past midnight — is rejected 400 (in the past); a
parsed deadline whose midnight is not before the current instant is
accepted (given the injection scan also passes). -/
theorem c3_deadline_validation_amended (data : Payload) (now : UtcTime) (ds : String)
    (h1 : nameCheck data = .ok) (h2 : priorityCheck data = .ok)
    (hdl : pget data "deadline" = some (.str ds)) (htr : truthy (.str ds) = true) :
    (parseDate ds = none →
      validate_task_data data now = .reject "Invalid deadline format. Use YYYY-MM-DD." 400) ∧
    (∀ dd, parseDate ds = some dd → dtLtNow dd now = true →
      validate_task_data data now = .reject "Deadline cannot be in the past" 400) ∧
    (∀ dd, parseDate ds = some dd → dtLtNow dd now = false → injectionScan data = .ok →
      validate_task_data data now = .ok) ∧
    (∀ dd, dateLt dd now.date = true → dtLtNow dd now = true) := by
  have hgd : pgetD data "deadline" .null = .str ds := by rw [pgetD, hdl]; rfl
  have hph : phas data "deadline" = true := by rw [phas, hdl]; rfl
  refine ⟨?_, ?_, ?_, ?_⟩
  · intro hparse
    rw [validate_eq_firstFail]
    rw [show deadlineCheck data now = .reject "Invalid deadline format. Use YYYY-MM-DD." 400 by
      unfold deadlineCheck
      rw [hgd, hph]
      simp [htr, hparse]]
    simp [h1, h2, firstFail_cons_ok, firstFail_cons_reject]
  · intro dd hparse hlt
    rw [validate_eq_firstFail]
    rw [show deadlineCheck data now = .reject "Deadline cannot be in the past" 400 by
      unfold deadlineCheck
      rw [hgd, hph]
      simp [htr, hparse, hlt]]
    simp [h1, h2, firstFail_cons_ok, firstFail_cons_reject]
  · intro dd hparse hlt hinj
    rw [validate_eq_firstFail]
    rw [show deadlineCheck data now = .ok by
      unfold deadlineCheck
      rw [hgd, hph]
      simp [htr, hparse, hlt]]
    simp [h1, h2, hinj, firstFail_cons_ok, firstFail_single]
  · intro dd hlt
    unfold dtLtNow
    rw [hlt]
    rfl

/-- Witness for the amended C3: a strictly-future deadline is accepted. -/
theorem c3_deadline_validation_amended_witness :
    validate_task_data
      [("name", .str "Pour foundation"), ("priority", .str "High"),
       ("deadline", .str "2099-01-01")] exNow = .ok :=
  (c3_deadline_validation_amended
    [("name", .str "Pour foundation"), ("priority", .str "High"),
     ("deadline", .str "2099-01-01")] exNow "2099-01-01"
    (by decide) (by decide) (by decide) (by decide)).2.2.1
    ⟨2099, 1, 1⟩ (by decide) (by decide) (by decide)

/-- **C5, counterexample**: an update payload with no progress field is
not rejected by the range validation, but it is not a no-op either: the
handler's read of `data["progress"]` raises `KeyError`, which the
`except` block answers with rollback and a 500 — an error, contrary to
the claim. -/
theorem c5_absent_progress_is_an_error :
    update_task 1 [] exStore1 okBeh =
      ⟨.err "Failed to update task", 500, exStore1, [.acquire, .rollback, .release]⟩ := by
  decide

/-- **C5, amended**: a supplied int progress outside [0,100] is
rejected 400 before any store interaction (empty connection trace,
store unchanged); an absent progress field passes that validation but
then causes a `KeyError` inside the store phase, so the request fails
with a 500 (store unchanged) rather than being a no-op. -/
theorem c5_update_validation_amended (task_id : Nat) (data : Payload)
    (store : Store) (beh : StoreBehavior) (n : Int)
    (hacq : beh.acquireFails = false) :
    (pget data "progress" = some (.int n) → ¬(0 ≤ n ∧ n ≤ 100) →
      update_task task_id data store beh =
        ⟨.err "Progress must be between 0-100", 400, store, []⟩) ∧
    (pget data "progress" = none →
      update_task task_id data store beh =
        ⟨.err "Failed to update task", 500, store, [.acquire, .rollback, .release]⟩) := by
  constructor
  · intro hp hn
    unfold update_task
    rw [hp]
    simp [hn]
  · intro hp
    unfold update_task
    rw [hp]
    simp [hacq]

/-- Witness for the amended C5: progress 150 is rejected with 400. -/
theorem c5_update_validation_amended_witness :
    update_task 1 [("progress", Value.int 150)] exStore1 okBeh =
      ⟨.err "Progress must be between 0-100", 400, exStore1, []⟩ :=
  (c5_update_validation_amended 1 [("progress", Value.int 150)] exStore1 okBeh 150 rfl).1
    (by decide) (by decide)

/-- **C6**: updating or deleting an id with no matching row observes an
affected-row count of 0, returns 404 with the connection released (the
open, empty transaction being discarded at release), leaves the table
unchanged, and repeating the identical call on the resulting store
yields the same 404. -/
theorem c6_not_found_idempotent (store : Store) (tid : Nat) (data : Payload) (n : Int)
    (beh : StoreBehavior)
    (hmiss : store.tasks.countP (fun t => t.id == tid) = 0)
    (hp : pget data "progress" = some (.int n)) (hn : 0 ≤ n ∧ n ≤ 100)
    (hacq : beh.acquireFails = false) (hexec : beh.execFails = false) :
    update_task tid data store beh = ⟨.err "Task not found", 404, store, [.acquire, .release]⟩ ∧
    delete_task tid store beh = ⟨.err "Task not found", 404, store, [.acquire, .release]⟩ ∧
    update_task tid data ((update_task tid data store beh).store) beh =
      ⟨.err "Task not found", 404, store, [.acquire, .release]⟩ ∧
    delete_task tid ((delete_task tid store beh).store) beh =
      ⟨.err "Task not found", 404, store, [.acquire, .release]⟩ := by
  have h1 : update_task tid data store beh =
      ⟨.err "Task not found", 404, store, [.acquire, .release]⟩ := by
    unfold update_task
    rw [hp]
    simp [hacq, hexec, hmiss, hn]
  have h2 : delete_task tid store beh =
      ⟨.err "Task not found", 404, store, [.acquire, .release]⟩ := by
    unfold delete_task
    simp [hacq, hexec, hmiss]
  refine ⟨h1, h2, ?_, ?_⟩
  · rw [h1]; exact h1
  · rw [h2]; exact h2

/-- Witness for C6 at a concrete store and a missing id. -/
theorem c6_not_found_idempotent_witness :
    update_task 7 [("progress", Value.int 50)] exStore1 okBeh =
      ⟨.err "Task not found", 404, exStore1, [.acquire, .release]⟩ ∧
    delete_task 7 exStore1 okBeh =
      ⟨.err "Task not found", 404, exStore1, [.acquire, .release]⟩ ∧
    update_task 7 [("progress", Value.int 50)]
        ((update_task 7 [("progress", Value.int 50)] exStore1 okBeh).store) okBeh =
      ⟨.err "Task not found", 404, exStore1, [.acquire, .release]⟩ ∧
    delete_task 7 ((delete_task 7 exStore1 okBeh).store) okBeh =
      ⟨.err "Task not found", 404, exStore1, [.acquire, .release]⟩ :=
  c6_not_found_idempotent exStore1 7 [("progress", Value.int 50)] 50 okBeh
    (by decide) (by decide) (by decide) rfl rfl

/-- Payload of the C8 counterexample: passes the backend validation. -/
def c8Payload : Payload :=
  [("name", .str "Lay bricks"), ("priority", .str "Low"), ("assigned_to", .str "Bob")]

/-- Behavior of the C8 counterexample: the INSERT raises with this
store error text. -/
def c8Beh : StoreBehavior := ⟨false, true, false, "relation tasks does not exist"⟩

/-- **C8, counterexample**: in `src/backend/app.py` a store error during
create is answered with the raw store error text embedded in the client
message, with no rollback and no close of the acquired connection. -/
theorem c8_backend_echoes_raw_store_error :
    backend_add_task c8Payload exNow ⟨[], 1⟩ c8Beh =
      ⟨.err "Database error: relation tasks does not exist", 500, ⟨[], 1⟩, [.acquire]⟩ ∧
    strHasSub c8Beh.errMsg "Database error: relation tasks does not exist" = true ∧
    (backend_add_task c8Payload exNow ⟨[], 1⟩ c8Beh).trace.count .rollback = 0 ∧
    (backend_add_task c8Payload exNow ⟨[], 1⟩ c8Beh).trace.count .release = 0 := by decide

/-- **C8, amended**: in the pooled implementation (`src/app/main.py`)
every store error raised during create, update or delete — whether the
statement raises at execution time or `conn.commit()` raises (a commit
error on update/delete presupposes the UPDATE/DELETE matched a row,
since commit is only reached then) — triggers rollback before release
and a fixed generic 500 message that is independent of the store error
text (`beh.errMsg` is universally quantified and absent from the
response); the non-pooled implementation (`src/backend/app.py`) instead
echoes the raw store error text and performs neither rollback nor close
on that path. -/
theorem c8_store_errors_amended (data datau : Payload) (now : UtcTime)
    (uid did : Nat) (store : Store) (beh : StoreBehavior) (n : Int)
    (hacq : beh.acquireFails = false)
    (hval : validate_task_data data now = .ok)
    (hp : pget datau "progress" = some (.int n)) (hn : 0 ≤ n ∧ n ≤ 100) :
    (beh.execFails = true →
      add_task data now store beh =
        ⟨.err "Failed to create task", 500, store, [.acquire, .rollback, .release]⟩ ∧
      update_task uid datau store beh =
        ⟨.err "Failed to update task", 500, store, [.acquire, .rollback, .release]⟩ ∧
      delete_task did store beh =
        ⟨.err "Failed to delete task", 500, store, [.acquire, .rollback, .release]⟩) ∧
    (beh.execFails = false → beh.commitFails = true →
      add_task data now store beh =
        ⟨.err "Failed to create task", 500, store, [.acquire, .rollback, .release]⟩ ∧
      (store.tasks.countP (fun t => t.id == uid) ≠ 0 →
        update_task uid datau store beh =
          ⟨.err "Failed to update task", 500, store, [.acquire, .rollback, .release]⟩) ∧
      (store.tasks.countP (fun t => t.id == did) ≠ 0 →
        delete_task did store beh =
          ⟨.err "Failed to delete task", 500, store, [.acquire, .rollback, .release]⟩)) := by
  constructor
  · intro hexec
    refine ⟨?_, ?_, ?_⟩
    · unfold add_task
      rw [hval]
      simp [hacq, hexec]
    · unfold update_task
      rw [hp]
      simp [hacq, hexec, hn]
    · unfold delete_task
      simp [hacq, hexec]
  · intro hexec hcommit
    refine ⟨?_, ?_, ?_⟩
    · unfold add_task
      rw [hval]
      simp only [hacq, hexec, Bool.false_eq_true, if_false]
      rcases hrow : insertRow? data store.nextId with _ | t
      · rfl
      · simp [hcommit]
    · intro hcount
      unfold update_task
      rw [hp]
      simp [hacq, hexec, hn, hcount, hcommit]
    · intro hcount
      unfold delete_task
      simp [hacq, hexec, hcount, hcommit]

/-- Witness for the amended C8 at concrete inputs: an execution-time
failure on create and a commit-time failure on update. -/
theorem c8_store_errors_amended_witness :
    add_task exPayloadA exNow exStore1 ⟨false, true, false, "boom"⟩ =
      ⟨.err "Failed to create task", 500, exStore1, [.acquire, .rollback, .release]⟩ ∧
    update_task 1 [("progress", Value.int 50)] exStore1 ⟨false, false, true, "boom"⟩ =
      ⟨.err "Failed to update task", 500, exStore1, [.acquire, .rollback, .release]⟩ :=
  ⟨((c8_store_errors_amended exPayloadA [("progress", Value.int 50)] exNow 1 1 exStore1
      ⟨false, true, false, "boom"⟩ 50 rfl (by decide) (by decide) (by decide)).1 rfl).1,
   ((c8_store_errors_amended exPayloadA [("progress", Value.int 50)] exNow 1 1 exStore1
      ⟨false, false, true, "boom"⟩ 50 rfl (by decide) (by decide) (by decide)).2 rfl
      rfl).2.1 (by decide)⟩

/-- Example fixture: a store holding two tasks out of id order, one
with a deadline and one without. -/
def exStore2 : Store :=
  ⟨[⟨2, "Roof work", 5, some "Bob", some ⟨2099, 1, 1⟩, "High"⟩,
    ⟨1, "Site prep", 10, none, none, "Low"⟩], 3⟩

/-- **C10**: listTasks returns the full stored sequence ordered by id
ascending (the result set is a permutation of the table, sorted by id),
with each deadline normalized to `YYYY-MM-DD` text when present and
null when absent; on a store error it returns a 500 retrieval failure;
in both cases the acquired connection is released. -/
theorem c10_list_tasks_ordered (store : Store) (beh : StoreBehavior)
    (hacq : beh.acquireFails = false) :
    (beh.execFails = false →
      get_tasks store beh =
        ⟨.tasks ((selectAllOrdered store).map renderTask), 200, store,
         [.acquire, .release]⟩ ∧
      (selectAllOrdered store).Perm store.tasks ∧
      (selectAllOrdered store).Sorted taskIdLe ∧
      ∀ t : TaskRow,
        (t.deadline = none → (renderTask t).deadline = none) ∧
        (∀ d, t.deadline = some d → (renderTask t).deadline = some (formatDate d))) ∧
    (beh.execFails = true →
      get_tasks store beh =
        ⟨.err "Failed to retrieve tasks", 500, store, [.acquire, .release]⟩) := by
  constructor
  · intro hexec
    refine ⟨?_, ?_, ?_, ?_⟩
    · unfold get_tasks
      simp [hacq, hexec]
    · exact List.perm_insertionSort taskIdLe store.tasks
    · exact List.sorted_insertionSort taskIdLe store.tasks
    · intro t
      constructor
      · intro h
        simp [renderTask, h]
      · intro d h
        simp [renderTask, h]
  · intro hexec
    unfold get_tasks
    simp [hacq, hexec]

/-- Witness for C10: the two out-of-order tasks come back sorted by id,
the deadline rendered as text and the absent one as null. -/
theorem c10_list_tasks_ordered_witness :
    get_tasks exStore2 okBeh =
      ⟨.tasks [⟨1, "Site prep", 10, none, none, "Low"⟩,
               ⟨2, "Roof work", 5, some "Bob", some "2099-01-01", "High"⟩],
       200, exStore2, [.acquire, .release]⟩ :=
  (((c10_list_tasks_ordered exStore2 okBeh rfl).1 rfl).1).trans (by decide)
